import Mathlib

/-!
Verification development for the contextual-qa-agent repository.

The repository is a small TypeScript pipeline: classify a query with a
generative model, resolve context (knowledge retrieval or current time),
produce reasoning text, synthesize a final answer, all behind a POST
/analyze endpoint.  The repository holds one file src/main.ts using a
static keyword knowledge base, and three further near-duplicate variants;
the first variant (called the Chroma variant below) uses a ChromaDB vector
index, a regex fast path for time questions, and nullish-coalescing
defaults.

The embedding models every external effect (generative calls, vector
queries, tool-logging calls) through an environment record holding the
outcome of each call, and each pipeline run returns the final outcome
together with the ordered list of external calls attempted.  JavaScript
string operations are modelled on explicit character lists so that all
definitions evaluate by kernel reduction.
-/

namespace ContextualQA

/-- Substring test helper: does the pattern appear as a leading segment. -/
def charsHavePre : List Char → List Char → Bool
  | [], _ => true
  | _ :: _, [] => false
  | p :: ps, c :: cs => p == c && charsHavePre ps cs

/-- Substring containment on character lists, models the JavaScript
String.includes method (the empty needle is contained everywhere). -/
def charsContain (needle : List Char) : List Char → Bool
  | [] => needle.isEmpty
  | c :: t => charsHavePre needle (c :: t) || charsContain needle t

/-- Models JavaScript hay.includes(needle). -/
def strContains (hay needle : String) : Bool :=
  charsContain needle.data hay.data

/-- Models JavaScript String.toLowerCase for the ASCII range. -/
def strLower (s : String) : String :=
  String.mk (s.data.map Char.toLower)

/-- Models JavaScript String.trim: strip leading and trailing whitespace. -/
def strTrim (s : String) : String :=
  String.mk (((s.data.dropWhile Char.isWhitespace).reverse.dropWhile
    Char.isWhitespace).reverse)

/-- First whitespace-delimited token of an already trimmed string; models
text.split on a whitespace run, taking element zero. -/
def firstToken (s : String) : String :=
  String.mk (s.data.takeWhile (fun c => !c.isWhitespace))

/-- Models the replace of every character outside a..z by nothing. -/
def keepLowerAlpha (s : String) : String :=
  String.mk (s.data.filter (fun c => 'a' ≤ c && c ≤ 'z'))

/-- Models the JavaScript logical-or default: empty, null and undefined
strings fall back to the default. -/
def jsOr (s : Option String) (d : String) : String :=
  match s with
  | some v => if v == "" then d else v
  | none => d

/-- Models the JavaScript truthiness test on an optional string, as used
in the missing-text check of the analyze handler. -/
def jsFalsyStr (s : Option String) : Bool :=
  match s with
  | none => true
  | some v => v == ""

/-- Classification string of src/main.ts line 106: the raw model content
defaulted to empty, lowercased, trimmed, first whitespace token, with all
characters outside a..z removed. -/
def classificationMain (raw : Option String) : String :=
  keepLowerAlpha (firstToken (strTrim (strLower (jsOr raw ""))))

/-- Classification string of the Chroma variant line 219: the raw model
content trimmed and lowercased whole, with missing content defaulting to
the word general. -/
def classificationChroma (raw : Option String) : String :=
  match raw with
  | some s => strLower (strTrim s)
  | none => "general"

/-- The enumerated classification outcome of the data model. -/
inductive Classification where
  | Question
  | General
deriving DecidableEq, Repr

/-- Branch decision of src/main.ts line 113. -/
def classifyMain (raw : Option String) : Classification :=
  if strContains (classificationMain raw) "question" then Classification.Question
  else Classification.General

/-- Branch decision of the Chroma variant line 221. -/
def classifyChroma (raw : Option String) : Classification :=
  if strContains (classificationChroma raw) "question" then Classification.Question
  else Classification.General

/-- Modelled from the spec: normalize the model output (lowercase, trim,
take the first alphabetic token) and map to Question only if that token
contains the word question; empty or missing output maps to General.
This is the comparison definition for the classification claim, written
from the words of the spec rather than from the source. -/
def specFirstTokenIsQuestion (raw : Option String) : Bool :=
  match raw with
  | none => false
  | some s => strContains (keepLowerAlpha (firstToken (strTrim (strLower s)))) "question"

/-- Word character of the regex escape for word boundaries: letters,
digits and underscore. -/
def isWordChar (c : Char) : Bool :=
  ('a' ≤ c && c ≤ 'z') || ('A' ≤ c && c ≤ 'Z') || ('0' ≤ c && c ≤ '9') || c == '_'

/-- Case-insensitive literal word match; returns the remaining input. -/
def matchLit : List Char → List Char → Option (List Char)
  | [], s => some s
  | _ :: _, [] => none
  | p :: ps, c :: cs => if c.toLower == p then matchLit ps cs else none

/-- Match a sequence of literal words separated by one or more whitespace
characters, the shape of the alternatives of the time regex. -/
def matchPhrase : List (List Char) → List Char → Option (List Char)
  | [], s => some s
  | [w], s => matchLit w s
  | w :: w2 :: ws, s =>
    match matchLit w s with
    | none => none
    | some s1 =>
      match s1 with
      | [] => none
      | c :: cs =>
        if c.isWhitespace then matchPhrase (w2 :: ws) (cs.dropWhile Char.isWhitespace)
        else none

/-- The three alternatives of the time regex of the Chroma variant
line 183. -/
def timePhrases : List (List (List Char)) :=
  [ ["what".data, "time".data, "is".data, "it".data],
    ["current".data, "time".data],
    ["time".data, "now".data] ]

/-- Trailing word boundary after a match ending in a word character:
end of input or a non-word character next. -/
def boundaryAfter : List Char → Bool
  | [] => true
  | c :: _ => !isWordChar c

/-- Does one of the time phrases match at the head of the input, with a
trailing word boundary. -/
def matchHere (s : List Char) : Bool :=
  timePhrases.any (fun ph =>
    match matchPhrase ph s with
    | some rest => boundaryAfter rest
    | none => false)

/-- Scan for a match position whose preceding character is not a word
character; every alternative begins with a word character, so this is
exactly the leading word boundary. -/
def searchTime : Bool → List Char → Bool
  | _, [] => false
  | prev, c :: cs => (!prev && matchHere (c :: cs)) || searchTime (isWordChar c) cs

/-- Models the regex test of the Chroma variant line 183: a word-bounded,
case-insensitive occurrence of one of the three time phrases. -/
def isTimeQuestion (text : String) : Bool :=
  searchTime false text.data

/-- Tags for the external calls a pipeline run attempts, in order. -/
inductive CallTag where
  | classify
  | toolLogTime
  | toolLogRetrieve
  | vectorQuery
  | kbLog
  | timeLog
  | reasoning
  | synthesis
deriving DecidableEq, Repr

/-- Environment of one Chroma-variant run: the outcome of each external
call the run may attempt.  Generative calls yield optional content (none
models a null message content); an error value models a thrown failure.
The nowIso field is the value the Date toISOString call produces. -/
structure ChromaEnv where
  classifyResp : Except String (Option String)
  timeLogResp : Except String Unit
  queryResp : Except String (List (Option String))
  retrieveLogResp : Except String Unit
  reasonResp : Except String (Option String)
  synthResp : Except String (Option String)
  nowIso : String

/-- The getCurrentTime tool of the Chroma variant lines 29 to 81: builds
the ISO timestamp, then performs a generative logging call; a failure of
that call is caught, diagnosed and rethrown, so it propagates. -/
def getCurrentTimeChroma (env : ChromaEnv) : Except String String × List CallTag :=
  match env.timeLogResp with
  | Except.ok _ => (Except.ok env.nowIso, [CallTag.toolLogTime])
  | Except.error e => (Except.error e, [CallTag.toolLogTime])

/-- Document selection of the Chroma variant line 96: the first returned
match, with null or missing collapsing to the fixed literal. -/
def selectDoc (ms : List (Option String)) : String :=
  ((ms.head?).bind id).getD "No relevant knowledge found."

/-- The retrieveFromChromaDB tool of the Chroma variant lines 83 to 149:
one vector query, document selection, then a generative logging call;
failures are rethrown and propagate. -/
def retrieveChroma (env : ChromaEnv) (_query : String) :
    Except String String × List CallTag :=
  match env.queryResp with
  | Except.error e => (Except.error e, [CallTag.vectorQuery])
  | Except.ok ms =>
    match env.retrieveLogResp with
    | Except.error e => (Except.error e, [CallTag.vectorQuery, CallTag.toolLogRetrieve])
    | Except.ok _ =>
      (Except.ok (selectDoc ms), [CallTag.vectorQuery, CallTag.toolLogRetrieve])

/-- Steps 3 and 4 of the Chroma variant lines 231 to 288: the reasoning
call, then the synthesis call whose missing content falls back to the
fixed string through nullish coalescing (an empty string passes). -/
def finishChroma (env : ChromaEnv) (calls : List CallTag) :
    Except String String × List CallTag :=
  match env.reasonResp with
  | Except.error e => (Except.error e, calls ++ [CallTag.reasoning])
  | Except.ok _ =>
    match env.synthResp with
    | Except.error e => (Except.error e, calls ++ [CallTag.reasoning, CallTag.synthesis])
    | Except.ok s =>
      (Except.ok (s.getD "No final response."),
        calls ++ [CallTag.reasoning, CallTag.synthesis])

/-- The processMultiStepQuery pipeline of the Chroma variant lines 178 to
288: regex fast path, otherwise classify and branch between retrieval and
the time tool, then reasoning and synthesis.  Returns the outcome and the
ordered list of external calls attempted. -/
def runChroma (env : ChromaEnv) (text : String) :
    Except String String × List CallTag :=
  if isTimeQuestion text then
    match getCurrentTimeChroma env with
    | (Except.error e, cs) => (Except.error e, cs)
    | (Except.ok _, cs) => finishChroma env cs
  else
    match env.classifyResp with
    | Except.error e => (Except.error e, [CallTag.classify])
    | Except.ok raw =>
      if strContains (classificationChroma raw) "question" then
        match retrieveChroma env text with
        | (Except.error e, cs) => (Except.error e, CallTag.classify :: cs)
        | (Except.ok _, cs) => finishChroma env (CallTag.classify :: cs)
      else
        match getCurrentTimeChroma env with
        | (Except.error e, cs) => (Except.error e, CallTag.classify :: cs)
        | (Except.ok _, cs) => finishChroma env (CallTag.classify :: cs)

/-- The static knowledge base of src/main.ts lines 13 to 17, entry ai. -/
def kbAi : String :=
  "Artificial Intelligence is the simulation of human intelligence processes by machines, especially computer systems."

/-- The static knowledge base of src/main.ts lines 13 to 17, entry
helicone. -/
def kbHelicone : String :=
  "Helicone is an observability platform that helps developers monitor and debug LLM applications."

/-- The static knowledge base of src/main.ts lines 13 to 17, entry rag. -/
def kbRag : String :=
  "Retrieval-Augmented Generation (RAG) combines retrieval of external knowledge with text generation to produce more accurate results."

/-- Keyword lookup of src/main.ts lines 115 to 140: lowercase the query,
then test substring inclusion in fixed priority order. -/
def lookupMain (text : String) : String :=
  let inputText := strLower text
  if strContains inputText "ai" || strContains inputText "artificial intelligence" then
    kbAi
  else if strContains inputText "helicone" then
    kbHelicone
  else if strContains inputText "rag" || strContains inputText "retrieval" then
    kbRag
  else
    "No relevant knowledge found."

/-- Environment of one src/main.ts run: the outcome of each external call
the run may attempt. -/
structure MainEnv where
  classifyResp : Except String (Option String)
  kbLogResp : Except String Unit
  timeLogResp : Except String Unit
  reasonResp : Except String (Option String)
  synthResp : Except String (Option String)
  nowIso : String

/-- Steps 3 and 4 of src/main.ts lines 169 to 232: the reasoning call,
then the synthesis call whose empty or missing content falls back to the
fixed string through the logical-or default. -/
def finishMain (env : MainEnv) (calls : List CallTag) :
    Except String String × List CallTag :=
  match env.reasonResp with
  | Except.error e => (Except.error e, calls ++ [CallTag.reasoning])
  | Except.ok _ =>
    match env.synthResp with
    | Except.error e => (Except.error e, calls ++ [CallTag.reasoning, CallTag.synthesis])
    | Except.ok s =>
      (Except.ok (jsOr s "No final response."),
        calls ++ [CallTag.reasoning, CallTag.synthesis])

/-- The processMultiStepQuery pipeline of src/main.ts lines 60 to 233:
classify, branch between static knowledge lookup and the time helper,
log the tool through an uncaught awaited generative call, then reasoning
and synthesis. -/
def runMain (env : MainEnv) (text : String) :
    Except String String × List CallTag :=
  match env.classifyResp with
  | Except.error e => (Except.error e, [CallTag.classify])
  | Except.ok raw =>
    if strContains (classificationMain raw) "question" then
      let _result := lookupMain text
      match env.kbLogResp with
      | Except.error e => (Except.error e, [CallTag.classify, CallTag.kbLog])
      | Except.ok _ => finishMain env [CallTag.classify, CallTag.kbLog]
    else
      let _result := "Current time is " ++ env.nowIso
      match env.timeLogResp with
      | Except.error e => (Except.error e, [CallTag.classify, CallTag.timeLog])
      | Except.ok _ => finishMain env [CallTag.classify, CallTag.timeLog]

/-- Shape of the JSON body an analyze handler produces: the HTTP status
and the optional response and error fields. -/
structure ApiResponse where
  status : Nat
  response : Option String
  bodyErr : Option String
deriving DecidableEq, Repr

/-- The analyze handler of the Chroma variant lines 290 to 314: a falsy
text field yields 400 with the fixed missing-text error before any
pipeline stage runs; otherwise the pipeline outcome maps to 200 with a
response field or 500 with an error field. -/
def analyzeChroma (env : ChromaEnv) (body : Option String) :
    ApiResponse × List CallTag :=
  if jsFalsyStr body then
    (⟨400, none, some "Missing text"⟩, [])
  else
    match runChroma env (body.getD "") with
    | (Except.ok r, cs) => (⟨200, some r, none⟩, cs)
    | (Except.error e, cs) => (⟨500, none, some e⟩, cs)

/-- The analyze handler of src/main.ts lines 236 to 254: the 400 error
string is the missing-text-parameter message, and the 500 error field is
the fixed internal-server-error string. -/
def analyzeMain (env : MainEnv) (body : Option String) :
    ApiResponse × List CallTag :=
  if jsFalsyStr body then
    (⟨400, none, some "Missing text parameter"⟩, [])
  else
    match runMain env (body.getD "") with
    | (Except.ok r, cs) => (⟨200, some r, none⟩, cs)
    | (Except.error _, cs) => (⟨500, none, some "Internal server error"⟩, cs)

/-- Exactly one of the response and error fields is present. -/
def exactlyOneBodyField (r : ApiResponse) : Bool :=
  (r.response.isSome && r.bodyErr.isNone) || (r.response.isNone && r.bodyErr.isSome)

/-- Relevance score of the Chroma variant line 106: a truthiness test on
the recorded distance, so a missing distance gives zero, a zero distance
also gives zero, and any other distance d gives one minus d. -/
def relevanceScore (d : Option ℚ) : ℚ :=
  match d with
  | none => 0
  | some x => if x = 0 then 0 else 1 - x

/-- A run outcome that succeeded with the empty string. -/
def isEmptySuccess : Except String String → Bool
  | Except.ok s => s == ""
  | Except.error _ => false

/-- A run outcome that, when it succeeded, produced the fixed synthesis
fallback string. -/
def okIsFallback : Except String String → Bool
  | Except.ok s => s == "No final response."
  | Except.error _ => true

/-- Concrete Chroma environment whose synthesis call succeeds with empty
string content while every other call succeeds. -/
def cEnvEmptySynth : ChromaEnv :=
  ⟨Except.ok (some "general"), Except.ok (), Except.ok [], Except.ok (),
    Except.ok (some "some reasoning"), Except.ok (some ""),
    "2024-01-01T00:00:00.000Z"⟩

/-- Concrete main.ts environment in which every external call succeeds. -/
def mEnvOk : MainEnv :=
  ⟨Except.ok (some "general"), Except.ok (), Except.ok (),
    Except.ok (some "some reasoning"), Except.ok (some "final answer"),
    "2024-01-01T00:00:00.000Z"⟩

/-- Concrete main.ts environment identical to the all-success one except
that the tool-logging call of the time branch fails. -/
def mEnvLogFail : MainEnv :=
  ⟨Except.ok (some "general"), Except.ok (), Except.error "log backend down",
    Except.ok (some "some reasoning"), Except.ok (some "final answer"),
    "2024-01-01T00:00:00.000Z"⟩

/-- Concrete Chroma environment in which the generative logging call made
inside the time tool fails. -/
def cEnvTimeFail : ChromaEnv :=
  ⟨Except.ok (some "general"), Except.error "groq unreachable", Except.ok [],
    Except.ok (), Except.ok (some "some reasoning"), Except.ok (some "answer"),
    "2024-01-01T00:00:00.000Z"⟩

lemma jsOr_fallback_ne_empty (s : Option String) :
    ((jsOr s "No final response.") == "") = false := by
  cases s with
  | none => decide
  | some v =>
    by_cases h : v = ""
    · subst h; decide
    · simp [jsOr, h]

/-- C1 (counterexample): the claim states that every classifier output is
normalized to its first alphabetic token before the question test, but
the Chroma variant tests the entire trimmed lowercased output: on the
verbose output shown, the Chroma variant classifies Question while the
first-token rule of the claim yields General. -/
theorem c1_counterexample :
    classifyChroma (some "General. It reads like a question.") =
      Classification.Question ∧
    specFirstTokenIsQuestion (some "General. It reads like a question.") = false := by
  exact ⟨by decide, by decide⟩

/-- C1 (amended): in src/main.ts the classification follows the stated
rule exactly: lowercase, trim, first whitespace token with non-alphabetic
characters removed, Question only when that token contains the word
question, and missing or empty output maps to General.  The Chroma
variants instead test the entire trimmed lowercased output for the
substring, with missing output defaulting to the word general.  In every
variant the classification resolves to exactly one of Question or
General. -/
theorem c1_amended : ∀ raw : Option String,
    (classifyMain raw =
      if specFirstTokenIsQuestion raw then Classification.Question
      else Classification.General) ∧
    classifyMain none = Classification.General ∧
    classifyChroma none = Classification.General ∧
    (classifyChroma raw = Classification.Question ∨
      classifyChroma raw = Classification.General) := by
  intro raw
  refine ⟨?_, by decide, by decide, ?_⟩
  · cases raw with
    | none => decide
    | some s =>
      by_cases h : s = ""
      · subst h; decide
      · simp [classifyMain, classificationMain, specFirstTokenIsQuestion, jsOr, h]
  · unfold classifyChroma
    split
    · exact Or.inl rfl
    · exact Or.inr rfl

/-- C9 (counterexample): a match recorded at distance zero receives
relevance score zero, while one minus the distance is one, so the claimed
formula is false at distance zero. -/
theorem c9_counterexample :
    relevanceScore (some 0) = 0 ∧ (1 - (0 : ℚ)) = 1 ∧
    decide (relevanceScore (some 0) = (1 : ℚ)) = false := by
  refine ⟨by simp [relevanceScore], by norm_num, by decide⟩

/-- C9 (amended): the relevance score equals one minus the distance for
every recorded nonzero distance; a distance of zero or a missing distance
yields score zero, because the source guards the subtraction with a
truthiness test on the distance. -/
theorem c9_amended : ∀ d : ℚ,
    (d ≠ 0 → relevanceScore (some d) = 1 - d) ∧
    relevanceScore (some 0) = 0 ∧ relevanceScore none = 0 := by
  intro d
  refine ⟨fun h => ?_, by decide, rfl⟩
  simp [relevanceScore, h]

/-- Witness for the amended relevance claim at distance one quarter. -/
theorem c9_witness : relevanceScore (some ((1 : ℚ)/4)) = 1 - 1/4 :=
  (c9_amended (1/4)).1 (by norm_num)

/-- C10: in the static-knowledge-base variants the keyword lookup is raw
case-insensitive substring inclusion in fixed priority order: any query
whose lowercased text contains the letters ai, even inside another word,
resolves to the AI document; helicone is tested only after both AI
conditions fail, and rag or retrieval only after helicone also fails.
The concrete query Explain Helicone resolves to the AI document. -/
theorem c10_confirmed : ∀ text : String,
    (strContains (strLower text) "ai" = true → lookupMain text = kbAi) ∧
    (strContains (strLower text) "artificial intelligence" = true →
      lookupMain text = kbAi) ∧
    (strContains (strLower text) "ai" = false →
      strContains (strLower text) "artificial intelligence" = false →
      strContains (strLower text) "helicone" = true →
      lookupMain text = kbHelicone) ∧
    (strContains (strLower text) "ai" = false →
      strContains (strLower text) "artificial intelligence" = false →
      strContains (strLower text) "helicone" = false →
      strContains (strLower text) "rag" = true →
      lookupMain text = kbRag) ∧
    lookupMain "Explain Helicone" = kbAi := by
  intro text
  refine ⟨fun h => ?_, fun h => ?_, fun h1 h2 h3 => ?_, fun h1 h2 h3 h4 => ?_, by decide⟩
  all_goals simp [lookupMain, *]

/-- Witness for the keyword-priority claim: the query mentions helicone
but contains the letters ai inside the word explain, so the AI document
is returned. -/
theorem c10_witness : lookupMain "Explain Helicone" = kbAi :=
  (c10_confirmed "Explain Helicone").1 (by decide)

/-- C5: in the knowledge branch of the Chroma variant, an empty match
list or a null first document resolves the context to the fixed literal,
and a present first document resolves the context to exactly that
document; the retrieval result is always exactly one of the two. -/
theorem c5_confirmed : ∀ (cr : Except String (Option String))
    (tl : Except String Unit) (rr sr : Except String (Option String))
    (now q d : String) (rest : List (Option String)),
    (retrieveChroma ⟨cr, tl, Except.ok [], Except.ok (), rr, sr, now⟩ q).1 =
      Except.ok "No relevant knowledge found." ∧
    (retrieveChroma ⟨cr, tl, Except.ok (none :: rest), Except.ok (), rr, sr, now⟩ q).1 =
      Except.ok "No relevant knowledge found." ∧
    (retrieveChroma ⟨cr, tl, Except.ok (some d :: rest), Except.ok (), rr, sr, now⟩ q).1 =
      Except.ok d := by
  intros; exact ⟨rfl, rfl, rfl⟩

/-- C7 (counterexample): in the Chroma variant the time tool performs a
generative logging call, so the TimeTool branch does make an external
call, and when that call fails the branch fails and the failure reaches
the whole pipeline. -/
theorem c7_counterexample :
    getCurrentTimeChroma cEnvTimeFail =
      (Except.error "groq unreachable", [CallTag.toolLogTime]) ∧
    (runChroma cEnvTimeFail "what time is it").1 =
      Except.error "groq unreachable" := ⟨rfl, rfl⟩

/-- C7 (amended): the time tool of the Chroma variant computes the
timestamp locally and returns it when its embedded generative logging
call succeeds, but it always attempts that one external call, and a
failure of the call propagates out of the branch. -/
theorem c7_amended : ∀ (cr : Except String (Option String))
    (qr : Except String (List (Option String))) (rl : Except String Unit)
    (rr sr : Except String (Option String)) (now e : String),
    getCurrentTimeChroma ⟨cr, Except.ok (), qr, rl, rr, sr, now⟩ =
      (Except.ok now, [CallTag.toolLogTime]) ∧
    getCurrentTimeChroma ⟨cr, Except.error e, qr, rl, rr, sr, now⟩ =
      (Except.error e, [CallTag.toolLogTime]) := by
  intros; exact ⟨rfl, rfl⟩

/-- C2: once a classification result is available, exactly one of the two
context branches executes in each variant: a classification containing
the word question produces exactly one retrieval call and no time-tool
call, and any other classification produces exactly one time-tool call
and no retrieval call; the fast path also produces the time-tool call and
no retrieval call. -/
theorem c2_confirmed : ∀ (raw rawM : Option String) (tl rl kl tl2 : Except String Unit)
    (qr : Except String (List (Option String)))
    (rr sr rm sm : Except String (Option String)) (now now2 text textM : String),
    (((runChroma ⟨Except.ok raw, tl, qr, rl, rr, sr, now⟩ text).2.count CallTag.vectorQuery,
      (runChroma ⟨Except.ok raw, tl, qr, rl, rr, sr, now⟩ text).2.count CallTag.toolLogTime) =
      if isTimeQuestion text then (0, 1)
      else if strContains (classificationChroma raw) "question" then (1, 0)
      else (0, 1)) ∧
    (((runMain ⟨Except.ok rawM, kl, tl2, rm, sm, now2⟩ textM).2.count CallTag.kbLog,
      (runMain ⟨Except.ok rawM, kl, tl2, rm, sm, now2⟩ textM).2.count CallTag.timeLog) =
      if strContains (classificationMain rawM) "question" then (1, 0) else (0, 1)) := by
  intro raw rawM tl rl kl tl2 qr rr sr rm sm now now2 text textM
  constructor
  · rcases tl with etl | utl <;> rcases rl with erl | url <;>
      rcases qr with eqr | ms <;> rcases rr with err2 | orr <;> rcases sr with esr | osr <;>
      cases htq : isTimeQuestion text <;>
      cases hq : strContains (classificationChroma raw) "question" <;>
      simp [runChroma, getCurrentTimeChroma, retrieveChroma, finishChroma, htq, hq]
  · rcases kl with ekl | ukl <;> rcases tl2 with etl2 | utl2 <;>
      rcases rm with erm | orm <;> rcases sm with esm | osm <;>
      cases hq : strContains (classificationMain rawM) "question" <;>
      simp [runMain, finishMain, hq]

/-- C3: an input matching the time regex always takes the fast path: the
generative classifier is never called, the time tool is invoked exactly
once, and no vector retrieval happens; any other input reaches the
classifier exactly once. -/
theorem c3_confirmed : ∀ (env : ChromaEnv) (text : String),
    if isTimeQuestion text then
      (runChroma env text).2.count CallTag.classify = 0 ∧
      (runChroma env text).2.count CallTag.toolLogTime = 1 ∧
      (runChroma env text).2.count CallTag.vectorQuery = 0
    else (runChroma env text).2.count CallTag.classify = 1 := by
  intro env text
  obtain ⟨cr, tl, qr, rl, rr, sr, now⟩ := env
  rcases cr with ecr | raw <;> rcases tl with etl | utl <;> rcases rl with erl | url <;>
    rcases qr with eqr | ms <;> rcases rr with err2 | orr <;> rcases sr with esr | osr <;>
    cases htq : isTimeQuestion text <;>
    first
    | (cases hq : strContains (classificationChroma raw) "question" <;>
        simp [runChroma, getCurrentTimeChroma, retrieveChroma, finishChroma, htq, hq])
    | simp [runChroma, getCurrentTimeChroma, retrieveChroma, finishChroma, htq]

/-- C4 (counterexample): with every call succeeding and the synthesis
model returning empty string content, the Chroma pipeline returns the
empty string rather than the fixed fallback, because nullish coalescing
lets an empty string through. -/
theorem c4_counterexample :
    (runChroma cEnvEmptySynth "hello").1 = Except.ok "" ∧
    isEmptySuccess (runChroma cEnvEmptySynth "hello").1 = true := ⟨rfl, rfl⟩

/-- C4 (amended): src/main.ts substitutes the fixed fallback for both
empty and missing synthesis content, so its pipeline never succeeds with
an empty answer; the Chroma variant substitutes the fallback only for
missing content, so an empty-string synthesis output is returned as an
empty final response there. -/
theorem c4_amended : ∀ (envM : MainEnv) (textM : String)
    (cr cm : Except String (Option String)) (tl rl kl tl2 : Except String Unit)
    (qr : Except String (List (Option String)))
    (rr rm : Except String (Option String)) (now textC now2 textM2 : String),
    isEmptySuccess (runMain envM textM).1 = false ∧
    okIsFallback (runChroma ⟨cr, tl, qr, rl, rr, Except.ok none, now⟩ textC).1 = true ∧
    okIsFallback (runMain ⟨cm, kl, tl2, rm, Except.ok none, now2⟩ textM2).1 = true ∧
    okIsFallback (runMain ⟨cm, kl, tl2, rm, Except.ok (some ""), now2⟩ textM2).1 = true := by
  intro envM textM cr cm tl rl kl tl2 qr rr rm now textC now2 textM2
  refine ⟨?_, ?_, ?_, ?_⟩
  · obtain ⟨cm2, kl2, tl3, rm2, sm2, now3⟩ := envM
    rcases cm2 with e | raw <;> rcases kl2 with e2 | u2 <;> rcases tl3 with e3 | u3 <;>
      rcases rm2 with e4 | o4 <;> rcases sm2 with e5 | o5 <;>
      first
      | (cases hq : strContains (classificationMain raw) "question" <;>
          simp [runMain, finishMain, isEmptySuccess, hq, jsOr_fallback_ne_empty])
      | simp [runMain, finishMain, isEmptySuccess, jsOr_fallback_ne_empty]
  · rcases cr with e | raw <;> rcases tl with e2 | u2 <;> rcases rl with e3 | u3 <;>
      rcases qr with e4 | ms <;> rcases rr with e5 | o5 <;>
      cases htq : isTimeQuestion textC <;>
      first
      | (cases hq : strContains (classificationChroma raw) "question" <;>
          simp [runChroma, getCurrentTimeChroma, retrieveChroma, finishChroma,
            okIsFallback, htq, hq])
      | simp [runChroma, getCurrentTimeChroma, retrieveChroma, finishChroma,
          okIsFallback, htq]
  · rcases cm with e | raw <;> rcases kl with e2 | u2 <;> rcases tl2 with e3 | u3 <;>
      rcases rm with e4 | o4 <;>
      first
      | (cases hq : strContains (classificationMain raw) "question" <;>
          simp [runMain, finishMain, okIsFallback, jsOr, hq])
      | simp [runMain, finishMain, okIsFallback, jsOr]
  · rcases cm with e | raw <;> rcases kl with e2 | u2 <;> rcases tl2 with e3 | u3 <;>
      rcases rm with e4 | o4 <;>
      first
      | (cases hq : strContains (classificationMain raw) "question" <;>
          simp [runMain, finishMain, okIsFallback, jsOr, hq])
      | simp [runMain, finishMain, okIsFallback, jsOr]

/-- C6 (counterexample): the same src/main.ts run that succeeds when the
tool-logging call succeeds aborts with the logging failure when only that
call fails, so a logging failure alters the main pipeline result and is
surfaced to the caller. -/
theorem c6_counterexample :
    (runMain mEnvOk "hi").1 = Except.ok "final answer" ∧
    (runMain mEnvLogFail "hi").1 = Except.error "log backend down" := ⟨rfl, rfl⟩

/-- C6 (amended): a failure raised in the tool-logging path is never
caught: whichever branch runs, the pipeline of either variant aborts with
exactly the logging failure, which the handler then surfaces as a 500. -/
theorem c6_amended : ∀ (raw rawC : Option String) (e : String)
    (re se rrC srC : Except String (Option String)) (now text : String)
    (ms : List (Option String)) (nowC textC : String),
    (runMain ⟨Except.ok raw, Except.error e, Except.error e, re, se, now⟩ text).1 =
      Except.error e ∧
    (runChroma ⟨Except.ok rawC, Except.error e, Except.ok ms, Except.error e,
      rrC, srC, nowC⟩ textC).1 = Except.error e := by
  intro raw rawC e re se rrC srC now text ms nowC textC
  constructor
  · cases hq : strContains (classificationMain raw) "question" <;>
      simp [runMain, hq]
  · cases htq : isTimeQuestion textC <;>
      cases hq : strContains (classificationChroma rawC) "question" <;>
      simp [runChroma, getCurrentTimeChroma, retrieveChroma, htq, hq]

/-- C8 (counterexample): the src/main.ts analyze handler answers a
missing text field with status 400 and the error string Missing text
parameter, which is not the error string Missing text the claim states. -/
theorem c8_counterexample :
    (analyzeMain mEnvOk none).1 = ⟨400, none, some "Missing text parameter"⟩ ∧
    decide ((analyzeMain mEnvOk none).1.bodyErr = some "Missing text") = false ∧
    (analyzeMain mEnvOk none).2 = [] := ⟨rfl, by decide, rfl⟩

/-- C8 (amended): both analyze handlers answer an absent or empty text
field with status 400 before any pipeline call, the Chroma variant with
the error string Missing text and src/main.ts with the error string
Missing text parameter; for non-empty text a pipeline success maps to
status 200 carrying exactly the response field and a pipeline failure
maps to status 500 carrying exactly the error field, so every body holds
exactly one of the two fields. -/
theorem c8_amended : ∀ (envC : ChromaEnv) (envM : MainEnv)
    (body : Option String) (t : String),
    analyzeChroma envC none = (⟨400, none, some "Missing text"⟩, []) ∧
    analyzeChroma envC (some "") = (⟨400, none, some "Missing text"⟩, []) ∧
    analyzeMain envM none = (⟨400, none, some "Missing text parameter"⟩, []) ∧
    analyzeMain envM (some "") = (⟨400, none, some "Missing text parameter"⟩, []) ∧
    exactlyOneBodyField (analyzeChroma envC body).1 = true ∧
    exactlyOneBodyField (analyzeMain envM body).1 = true ∧
    ((analyzeChroma envC (some t)).1.status =
      if t == "" then 400 else
        match (runChroma envC t).1 with
        | Except.ok _ => 200
        | Except.error _ => 500) ∧
    ((analyzeChroma envC (some t)).1.response =
      if t == "" then none else
        match (runChroma envC t).1 with
        | Except.ok r => some r
        | Except.error _ => none) ∧
    ((analyzeChroma envC (some t)).1.bodyErr =
      if t == "" then some "Missing text" else
        match (runChroma envC t).1 with
        | Except.ok _ => none
        | Except.error e => some e) ∧
    ((analyzeMain envM (some t)).1.status =
      if t == "" then 400 else
        match (runMain envM t).1 with
        | Except.ok _ => 200
        | Except.error _ => 500) ∧
    ((analyzeMain envM (some t)).1.response =
      if t == "" then none else
        match (runMain envM t).1 with
        | Except.ok r => some r
        | Except.error _ => none) ∧
    ((analyzeMain envM (some t)).1.bodyErr =
      if t == "" then some "Missing text parameter" else
        match (runMain envM t).1 with
        | Except.ok _ => none
        | Except.error _ => some "Internal server error") := by
  intro envC envM body t
  refine ⟨rfl, rfl, rfl, rfl, ?_, ?_, ?_, ?_, ?_, ?_, ?_, ?_⟩
  · rcases body with _ | b
    · rfl
    · rcases hb : b == "" with _ | _ <;>
        rcases hrun : runChroma envC b with ⟨res, cs⟩ <;>
        rcases res with e | r <;>
        simp [analyzeChroma, jsFalsyStr, hb, hrun, exactlyOneBodyField]
  · rcases body with _ | b
    · rfl
    · rcases hb : b == "" with _ | _ <;>
        rcases hrun : runMain envM b with ⟨res, cs⟩ <;>
        rcases res with e | r <;>
        simp [analyzeMain, jsFalsyStr, hb, hrun, exactlyOneBodyField]
  all_goals
    rcases ht : t == "" with _ | _ <;>
      rcases hrunC : runChroma envC t with ⟨resC, csC⟩ <;>
      rcases hrunM : runMain envM t with ⟨resM, csM⟩ <;>
      rcases resC with eC | rC <;> rcases resM with eM | rM <;>
      simp [analyzeChroma, analyzeMain, jsFalsyStr, ht, hrunC, hrunM]

end ContextualQA
